import Mathlib

/-!
Shallow embedding of the django-oauth2-capture token lifecycle engine
(`oauth2_capture/services/oauth2.py`, `oauth2_capture/views.py`,
`oauth2_capture/models.py`) and proofs of the specification claims.

Machine conventions: timestamps are `Int` (seconds); Python dicts of
optional fields become structures of `Option` fields; network and
storage effects are passed in explicitly as environments; randomness
(PKCE verifiers, the state nonce, `secrets.token_urlsafe` byte input)
is an explicit argument.
-/

namespace OAuth2Capture

/-! ## Sessions (Django request.session as a string-keyed dict) -/

/-- A request session: an association list, later keys overriding earlier
ones via `sessionSet`. -/
abbrev Session := List (String × String)

def sessionGet (s : Session) (k : String) : Option String :=
  (List.find? (fun p => p.1 == k) s).map (fun p => p.2)

def sessionSet (s : Session) (k v : String) : Session :=
  List.filter (fun p => p.1 != k) s ++ [(k, v)]

/-! ## base64.urlsafe_b64encode and the unpadded variant

The URL-safe base64 alphabet (RFC 4648 `-`/`_` variant), exactly the one
`base64.urlsafe_b64encode` and `secrets.token_urlsafe` use. -/

def B64ALPHABET : List Char :=
  ['A','B','C','D','E','F','G','H','I','J','K','L','M','N','O','P',
   'Q','R','S','T','U','V','W','X','Y','Z',
   'a','b','c','d','e','f','g','h','i','j','k','l','m','n','o','p',
   'q','r','s','t','u','v','w','x','y','z',
   '0','1','2','3','4','5','6','7','8','9','-','_']

def alphaChar (i : Nat) : Char := B64ALPHABET.getD (i % 64) 'A'

/-- `base64.urlsafe_b64encode` on a byte list (each byte `< 256`),
producing the padded character sequence. -/
def b64encodeList : List Nat → List Char
  | a :: b :: c :: rest =>
      let n := a * 65536 + b * 256 + c
      alphaChar (n / 262144) :: alphaChar (n / 4096) :: alphaChar (n / 64)
        :: alphaChar n :: b64encodeList rest
  | [a] =>
      let n := a * 16
      [alphaChar (n / 256), alphaChar n, '=', '=']
  | [a, b] =>
      let n := a * 1024 + b * 4
      [alphaChar (n / 4096), alphaChar (n / 64), alphaChar n, '=']
  | [] => []

/-- `.rstrip("=")` on a character list (Python strips all trailing
occurrences). -/
def stripEqList (l : List Char) : List Char :=
  (List.dropWhile (fun c => c == '=') l.reverse).reverse

/-- `secrets.token_urlsafe(nbytes)`: base64url-encode `nbytes` random
bytes and strip the `=` padding.  The random bytes are the explicit
argument; the caller fixes how many there are. -/
def token_urlsafe (randomBytes : List Nat) : String :=
  ⟨stripEqList (b64encodeList randomBytes)⟩

/-- `generate_code_verifier(length=128)` from services/oauth2.py:
`secrets.token_urlsafe(length)`, i.e. the `length` argument counts
random BYTES, not output characters.  `randomBytes` is the byte string
drawn by `secrets`; the default call supplies 128 of them. -/
def generate_code_verifier (randomBytes : List Nat) : String :=
  token_urlsafe randomBytes

end OAuth2Capture

namespace OAuth2Capture

/-- Unpadded base64 length of `n` input bytes. -/
def b64strippedLen (n : Nat) : Nat :=
  4 * (n / 3) + (match n % 3 with | 0 => 0 | 1 => 2 | _ => 3)

end OAuth2Capture

namespace OAuth2Capture

/-! ## SHA-256 (hashlib.sha256), over byte lists -/

/-- Reduce to a 32-bit word. -/
def w32 (n : Nat) : Nat := n % 4294967296

/-- 32-bit rotate right (operand assumed `< 2^32`). -/
def rotr32 (n x : Nat) : Nat := w32 ((x >>> n) ||| (x <<< (32 - n)))

def SHA_K : List Nat :=
  [1116352408, 1899447441, 3049323471, 3921009573, 961987163,
   1508970993, 2453635748, 2870763221, 3624381080, 310598401,
   607225278, 1426881987, 1925078388, 2162078206, 2614888103,
   3248222580, 3835390401, 4022224774, 264347078, 604807628,
   770255983, 1249150122, 1555081692, 1996064986, 2554220882,
   2821834349, 2952996808, 3210313671, 3336571891, 3584528711,
   113926993, 338241895, 666307205, 773529912, 1294757372,
   1396182291, 1695183700, 1986661051, 2177026350, 2456956037,
   2730485921, 2820302411, 3259730800, 3345764771, 3516065817,
   3600352804, 4094571909, 275423344, 430227734, 506948616,
   659060556, 883997877, 958139571, 1322822218, 1537002063,
   1747873779, 1955562222, 2024104815, 2227730452, 2361852424,
   2428436474, 2756734187, 3204031479, 3329325298]

def SHA_H0 : List Nat :=
  [1779033703, 3144134277, 1013904242, 2773480762,
   1359893119, 2600822924, 528734635, 1541459225]

/-- Big-endian byte decomposition of `val` into `numBytes` bytes. -/
def toBytesBE (numBytes val : Nat) : List Nat :=
  (List.range numBytes).map (fun i => (val >>> (8 * (numBytes - 1 - i))) % 256)

/-- SHA-256 message padding: append `0x80`, zeros, and the 64-bit
big-endian bit length, to a multiple of 64 bytes. -/
def shaPad (msg : List Nat) : List Nat :=
  msg ++ 0x80 :: List.replicate ((64 - ((msg.length + 9) % 64)) % 64) 0
      ++ toBytesBE 8 (8 * msg.length)

/-- Split into 64-byte blocks. -/
def chunks64 (l : List Nat) : List (List Nat) :=
  if h : l = [] then []
  else l.take 64 :: chunks64 (l.drop 64)
termination_by l.length
decreasing_by
  simp only [List.length_drop]
  have : 0 < l.length := List.length_pos.mpr h
  omega

/-- The first 16 message-schedule words of a 64-byte block (big-endian). -/
def initW (block : List Nat) : List Nat :=
  (List.range 16).map (fun i =>
    block.getD (4 * i) 0 * 16777216 + block.getD (4 * i + 1) 0 * 65536
      + block.getD (4 * i + 2) 0 * 256 + block.getD (4 * i + 3) 0)

/-- Extend the message schedule to 64 words. -/
def extendW (w0 : List Nat) : List Nat :=
  (List.range 48).foldl
    (fun w _ =>
      let a := w.getD (w.length - 15) 0
      let b := w.getD (w.length - 2) 0
      let s0 := rotr32 7 a ^^^ rotr32 18 a ^^^ (a >>> 3)
      let s1 := rotr32 17 b ^^^ rotr32 19 b ^^^ (b >>> 10)
      w ++ [w32 (w.getD (w.length - 16) 0 + s0 + w.getD (w.length - 7) 0 + s1)])
    w0

/-- One SHA-256 compression of a 64-word schedule into the hash state. -/
def shaCompress (w : List Nat) (hs : List Nat) : List Nat :=
  let final := (List.range 64).foldl
    (fun st i =>
      match st with
      | [a, b, c, d, e, f, g, hh] =>
        let S1 := rotr32 6 e ^^^ rotr32 11 e ^^^ rotr32 25 e
        let ch := (e &&& f) ^^^ ((e ^^^ 4294967295) &&& g)
        let temp1 := w32 (hh + S1 + ch + SHA_K.getD i 0 + w.getD i 0)
        let S0 := rotr32 2 a ^^^ rotr32 13 a ^^^ rotr32 22 a
        let maj := (a &&& b) ^^^ (a &&& c) ^^^ (b &&& c)
        let temp2 := w32 (S0 + maj)
        [w32 (temp1 + temp2), a, b, c, w32 (d + temp1), e, f, g]
      | other => other)
    hs
  List.zipWith (fun x y => w32 (x + y)) hs final

/-- `hashlib.sha256(msg).digest()` on a byte list. -/
def sha256 (msg : List Nat) : List Nat :=
  let H := (chunks64 (shaPad msg)).foldl
    (fun hs block => shaCompress (extendW (initW block)) hs) SHA_H0
  (H.map (toBytesBE 4)).flatten

/-- UTF-8 bytes of an ASCII string (`verifier.encode("utf-8")`; PKCE
verifiers produced by `token_urlsafe` are ASCII). -/
def asciiBytes (s : String) : List Nat := s.data.map (fun c => c.toNat)

/-- `generate_code_challenge(verifier)` from services/oauth2.py:
`base64.urlsafe_b64encode(hashlib.sha256(verifier.encode("utf-8")).digest())
.decode("utf-8").rstrip("=")`. -/
def generate_code_challenge (verifier : String) : String :=
  ⟨stripEqList (b64encodeList (sha256 (asciiBytes verifier)))⟩

/-! ## Data model (`oauth2_capture/models.py`) -/

/-- The fields of `user_info` dicts the lifecycle code reads
(`user_info.get("id")`, `user_info.get("name")`); `none` models an
absent key / `None`. -/
structure UserInfo where
  id : Option String
  name : Option String
  deriving DecidableEq, Repr

/-- The `OAuthToken` model row.  `pk` is the database primary key;
timestamps are `Int` seconds; `Option` fields model NULLable columns or
values the code may set to `None`. -/
structure OAuthToken where
  pk : Nat
  provider : String
  access_token : String
  expires_at : Option Int
  refresh_token : String
  refresh_token_expires_at : Option Int
  token_type : Option String
  scope : String
  user_id : String
  owner : Nat
  profile_json : Option UserInfo
  name : Option String
  deriving DecidableEq, Repr

/-- `OAuthToken.is_expired` from models.py: `timezone.now() >
self.expires_at` when `expires_at` is set, else `False`. -/
def OAuthToken.is_expired (now : Int) (t : OAuthToken) : Bool :=
  match t.expires_at with
  | some e => now > e
  | none => false

/-- A provider token response dict (`token_data`); `none` models an
absent key. -/
structure TokenData where
  access_token : Option String
  refresh_token : Option String
  expires_in : Option Int
  refresh_token_expires_in : Option Int
  scope : Option String
  token_type : Option String
  deriving DecidableEq, Repr

/-- `settings.OAUTH2_CONFIG[provider_name]`. -/
structure ProviderConfig where
  client_id : String
  client_secret : String
  scope : String
  deriving DecidableEq, Repr

/-! ## retry_with_backoff (services/oauth2.py lines 57-84) -/

/-- Digit-run parser backing `pyInt?`: accumulates a value once at least
one digit has been read; an underscore is legal only between digits
(Python numeric-literal rule for `int(str)`). -/
def pyDigitsAux : List Char → Option Nat → Option Nat
  | [], acc => acc
  | '_' :: rest, some v =>
      match rest with
      | c :: _ => if c.isDigit then pyDigitsAux rest (some v) else none
      | [] => none
  | c :: rest, acc =>
      if c.isDigit then pyDigitsAux rest (some (acc.getD 0 * 10 + (c.toNat - 48)))
      else none

/-- Python `int(s)` on an ASCII string: strip whitespace, optional sign,
digit run (with `_` separators); `none` models `ValueError`. -/
def pyInt? (s : String) : Option Int :=
  match s.trim.data with
  | '+' :: rest => (pyDigitsAux rest none).map (fun n => (n : Int))
  | '-' :: rest => (pyDigitsAux rest none).map (fun n => -(n : Int))
  | cs => (pyDigitsAux cs none).map (fun n => (n : Int))

/-- The part of an HTTP response `retry_with_backoff` inspects:
`status_code` and `headers.get("Retry-After")` (plus a body so that
distinct responses are distinguishable). -/
structure Response where
  status_code : Nat
  retry_after : Option String
  body : String
  deriving DecidableEq, Repr

/-- The delay slept after a 429 on attempt `attempt` (0-based):
`fallback_delays[min(attempt, len(fallback_delays) - 1)]`, overridden by
`int(Retry-After)` when that header is truthy (non-empty) and parses
(`contextlib.suppress(ValueError)`). -/
def delayFor (fallback_delays : List Int) (attempt : Nat) (r : Response) : Int :=
  let d := fallback_delays.getD (min attempt (fallback_delays.length - 1)) 0
  match r.retry_after with
  | none => d
  | some s => if s.isEmpty then d else (pyInt? s).getD d

/-- The `for attempt in range(max_retries)` loop.  `request_func i` is
the response to the `i`-th call; returns (final response — `none` only
when the loop body never ran, i.e. Python's unbound `response`; the
sleeps performed, in order; the number of calls made). -/
def retryLoop (request_func : Nat → Response) (fallback_delays : List Int) :
    Nat → Nat → Option Response × List Int × Nat
  | _, 0 => (none, [], 0)
  | attempt, rem + 1 =>
    let r := request_func attempt
    if r.status_code ≠ 429 then (some r, [], 1)
    else
      let d := delayFor fallback_delays attempt r
      match rem with
      | 0 => (some r, [d], 1)
      | rem' + 1 =>
        let out := retryLoop request_func fallback_delays (attempt + 1) (rem' + 1)
        (out.1, d :: out.2.1, out.2.2 + 1)

/-- `retry_with_backoff(request_func, max_retries, fallback_delays)`.
The source defaults are `max_retries = 5`,
`fallback_delays = (5, 10, 20, 40, 60)`. -/
def retry_with_backoff (request_func : Nat → Response) (max_retries : Nat)
    (fallback_delays : List Int) : Option Response × List Int × Nat :=
  retryLoop request_func fallback_delays 0 max_retries

def defaultFallbackDelays : List Int := [5, 10, 20, 40, 60]

/-! ## OAuth2ProviderFactory (services/oauth2.py lines 782-808) -/

inductive ProviderType
  | twitter
  | linkedin
  | github
  | reddit
  | pinterest
  | facebook
  deriving DecidableEq, Repr

/-- `OAuth2ProviderFactory.get_provider`: dict lookup over the six
registered providers, `ValueError("Unsupported provider: ...")`
otherwise. -/
def OAuth2ProviderFactory.get_provider (provider_name : String) :
    Except String ProviderType :=
  if provider_name == "twitter" then .ok .twitter
  else if provider_name == "linkedin" then .ok .linkedin
  else if provider_name == "github" then .ok .github
  else if provider_name == "reddit" then .ok .reddit
  else if provider_name == "pinterest" then .ok .pinterest
  else if provider_name == "facebook" then .ok .facebook
  else .error ("Unsupported provider: " ++ provider_name)

/-! ## Authorization URLs -/

/-- An authorization URL split into its base and its query parameters
(the `urlencode(params)` input, order preserved). -/
structure AuthUrl where
  base : String
  params : List (String × String)
  deriving DecidableEq, Repr

def paramGet (u : AuthUrl) (k : String) : Option String :=
  (u.params.find? (fun p => p.1 == k)).map (fun p => p.2)

/-- `OAuth2Provider.get_authorization_url` (base class): the five
standard query parameters. -/
def OAuth2Provider.get_authorization_url (authorize_url : String)
    (config : ProviderConfig) (state redirect_uri : String) : AuthUrl :=
  ⟨authorize_url,
   [("client_id", config.client_id), ("redirect_uri", redirect_uri),
    ("response_type", "code"), ("state", state), ("scope", config.scope)]⟩

/-- `TwitterOAuth2Provider.get_authorization_url`: generates a PKCE
verifier (from `verifierBytes` random bytes; the source draws 128),
stores it in the session under `"code_verifier"`, and appends the S256
challenge parameters. -/
def TwitterOAuth2Provider.get_authorization_url (config : ProviderConfig)
    (state redirect_uri : String) (session : Session) (verifierBytes : List Nat) :
    AuthUrl × Session :=
  let code_verifier := generate_code_verifier verifierBytes
  let code_challenge := generate_code_challenge code_verifier
  let session' := sessionSet session "code_verifier" code_verifier
  (⟨"https://twitter.com/i/oauth2/authorize",
    [("client_id", config.client_id), ("redirect_uri", redirect_uri),
     ("response_type", "code"), ("state", state), ("scope", config.scope),
     ("code_challenge", code_challenge), ("code_challenge_method", "S256")]⟩,
   session')

/-- `RedditOAuth2Provider.get_authorization_url`: the five standard
parameters plus `duration=permanent`. -/
def RedditOAuth2Provider.get_authorization_url (config : ProviderConfig)
    (state redirect_uri : String) : AuthUrl :=
  ⟨"https://www.reddit.com/api/v1/authorize",
   [("client_id", config.client_id), ("redirect_uri", redirect_uri),
    ("response_type", "code"), ("state", state), ("scope", config.scope),
    ("duration", "permanent")]⟩

/-! ## update_token and get_valid_token (services/oauth2.py 202-270) -/

/-- `OAuth2Provider.update_token`: mutates and saves the token row.
`none` models the `KeyError` on `token_data["access_token"]` (never hit
by the callers, which check the key first). -/
def update_token (config_scope : String) (now : Int) (oauth_token : OAuthToken)
    (token_data : TokenData) (user_info : UserInfo) : Option OAuthToken :=
  match token_data.access_token with
  | none => none
  | some tok =>
    some { oauth_token with
      access_token := tok
      refresh_token := token_data.refresh_token.getD oauth_token.refresh_token
      expires_at :=
        match token_data.expires_in with
        | some s => some (now + s)
        | none => oauth_token.expires_at
      refresh_token_expires_at :=
        match token_data.refresh_token_expires_in with
        | some s => some (now + s)
        | none => oauth_token.refresh_token_expires_at
      scope := token_data.scope.getD config_scope
      token_type := token_data.token_type
      profile_json := some user_info
      name := user_info.name }

/-- The collaborators `get_valid_token` calls out to:
`refresh_token(rt)` (with `none` standing for the empty dict / falsy
failure result), `get_user_info(access_token)`, and whether the
persistence step (`update_token`'s `save`) raises. -/
structure RefreshEnv where
  refresh_result : String → Option TokenData
  user_info : String → UserInfo
  save_fails : Bool

/-- Observable outcome of `get_valid_token`: the returned value
(`str | None`), the row written to the store (if any), and the number of
outbound network calls made. -/
structure GVTResult where
  result : Option String
  written : Option OAuthToken
  network_calls : Nat
  deriving DecidableEq, Repr

/-- `OAuth2Provider.get_valid_token(oauth_token)`: refresh iff
`oauth_token.expires_at and oauth_token.expires_at <= timezone.now()`;
on failed refresh (falsy or missing `access_token`) log and return
`None`; on an exception during `update_token` log and return `None`;
otherwise return the (possibly refreshed) `access_token`. -/
def get_valid_token (config_scope : String) (env : RefreshEnv) (now : Int)
    (oauth_token : OAuthToken) : GVTResult :=
  match oauth_token.expires_at with
  | some e =>
    if e ≤ now then
      match env.refresh_result oauth_token.refresh_token with
      | none => ⟨none, none, 1⟩
      | some td =>
        match td.access_token with
        | none => ⟨none, none, 1⟩
        | some at_tok =>
          if env.save_fails then ⟨none, none, 2⟩
          else
            match update_token config_scope now oauth_token td (env.user_info at_tok) with
            | none => ⟨none, none, 2⟩
            | some tok2 => ⟨some tok2.access_token, some tok2, 2⟩
    else ⟨some oauth_token.access_token, none, 0⟩
  | none => ⟨some oauth_token.access_token, none, 0⟩

/-! ## The token store and the callback view (views.py, models.py Meta) -/

/-- The `unique_together = ("provider", "user_id")` key. -/
def dbKey (t : OAuthToken) : String × String := (t.provider, t.user_id)

/-- models.py Meta invariant: at most one row per (provider, user_id). -/
def uniqueProviderUser (db : List OAuthToken) : Prop := (db.map dbKey).Nodup

/-- Primary keys are unique (database invariant). -/
def pkNodup (db : List OAuthToken) : Prop :=
  (db.map (fun t => t.pk)).Nodup

def dbWF (db : List OAuthToken) : Prop := pkNodup db ∧ uniqueProviderUser db

def freshPk (db : List OAuthToken) : Nat :=
  db.foldr (fun t m => max t.pk m) 0 + 1

/-- The row `get_or_create` creates when none matches: defaults from
models.py (`""` for character fields, NULL for nullable ones). -/
def newToken (pk : Nat) (provider user_id : String) (owner : Nat) : OAuthToken :=
  ⟨pk, provider, "", none, "", none, some "", "", user_id, owner, none, some ""⟩

/-- `OAuthToken.objects.get_or_create(provider=, user_id=, owner=)`:
return the matching row, or insert a fresh one; the insert trips the
`unique_together("provider", "user_id")` constraint if a row with the
same key but a different owner exists. -/
def get_or_create (db : List OAuthToken) (provider user_id : String) (owner : Nat) :
    Except String (OAuthToken × Bool × List OAuthToken) :=
  match db.find? (fun t =>
      t.provider == provider && t.user_id == user_id && t.owner == owner) with
  | some t => .ok (t, false, db)
  | none =>
      if db.any (fun t => t.provider == provider && t.user_id == user_id) then
        .error "IntegrityError: UNIQUE constraint failed: provider, user_id"
      else
        let t := newToken (freshPk db) provider user_id owner
        .ok (t, true, db ++ [t])

/-- `save()`: point update of the row with the same primary key. -/
def dbSave (db : List OAuthToken) (t' : OAuthToken) : List OAuthToken :=
  db.map (fun t => if t.pk == t'.pk then t' else t)

/-- Apply `get_valid_token`'s write (if any) to the store. -/
def applyWrite (db : List OAuthToken) : Option OAuthToken → List OAuthToken
  | none => db
  | some t' => dbSave db t'

/-- The query string of the provider's redirect:
`request.GET.get("code" | "state" | "error")`. -/
structure QueryParams where
  code : Option String
  state : Option String
  error : Option String
  deriving DecidableEq, Repr

/-- The collaborators of the callback view: the code exchange (applied
to the raw `code` query parameter, which views.py passes through even
when absent), the user-info fetch, and the adapter config/clock used by
`update_token`. -/
structure CallbackEnv where
  exchange : Option String → TokenData
  user_info : String → UserInfo
  config_scope : String
  now : Int

inductive CallbackOutcome
  | success (provider : String)
  | unsupported_provider
  | failed (provider : String)
  | integrity_error
  deriving DecidableEq, Repr

structure CallbackResult where
  outcome : CallbackOutcome
  exchange_called : Bool
  session : Session
  db : List OAuthToken
  deriving DecidableEq, Repr

/-- `oauth2_callback(request, provider)` from views.py, exactly as
written: resolve the adapter (400 on unknown provider), exchange the
code unconditionally, and on a truthy `access_token` fetch user info and
upsert; the `state` query parameter and the session are never read,
written, or cleared. -/
def oauth2_callback (env : CallbackEnv) (provider : String) (q : QueryParams)
    (session : Session) (owner : Nat) (db : List OAuthToken) : CallbackResult :=
  match OAuth2ProviderFactory.get_provider provider with
  | .error _ => ⟨.unsupported_provider, false, session, db⟩
  | .ok _ =>
    match (env.exchange q.code).access_token with
    | none => ⟨.failed provider, true, session, db⟩
    | some access_token =>
      if access_token == "" then ⟨.failed provider, true, session, db⟩
      else
        match (env.user_info access_token).id with
        | none => ⟨.integrity_error, true, session, db⟩
        | some uid =>
          match get_or_create db provider uid owner with
          | .error _ => ⟨.integrity_error, true, session, db⟩
          | .ok (tok, _, db1) =>
            match update_token env.config_scope env.now tok (env.exchange q.code)
                (env.user_info access_token) with
            | none => ⟨.integrity_error, true, session, db1⟩
            | some tok' => ⟨.success provider, true, session, dbSave db1 tok'⟩

/-! ## Concrete fixtures (mirroring the repository's own test inputs) -/

/-- An expired token (`expires_at` one hour in the past of `now = 0`),
as in tests/test_token_refresh.py. -/
def tokExpired : OAuthToken :=
  ⟨1, "twitter", "expired_token", some (-3600), "refresh_token_123", none,
   some "Bearer", "tweet.read", "twitter_user_123", 1, none, some ""⟩

/-- Refresh returns the empty/falsy result (failed HTTP refresh). -/
def envRefreshEmpty : RefreshEnv :=
  ⟨fun _ => none, fun _ => ⟨some "12345", some "Test User"⟩, false⟩

/-- Refresh returns a dict lacking `access_token`
(`{"error": "invalid_grant"}`). -/
def envRefreshInvalid : RefreshEnv :=
  ⟨fun _ => some ⟨none, none, none, none, none, none⟩,
   fun _ => ⟨some "12345", some "Test User"⟩, false⟩

/-- Refresh succeeds but persisting the update raises. -/
def envSaveError : RefreshEnv :=
  ⟨fun _ => some ⟨some "new_access_token", none, some 3600, none, none, none⟩,
   fun _ => ⟨some "12345", none⟩, true⟩

/-- Refresh succeeds with `{access_token: "new", expires_in: 3600}`. -/
def envRefreshNew : RefreshEnv :=
  ⟨fun _ => some ⟨some "new", none, some 3600, none, none, none⟩,
   fun _ => ⟨some "12345", some "Test User"⟩, false⟩

/-- Callback collaborators as mocked in tests/test_views.py:
exchange yields `{'access_token': 'test_token'}`, user info
`{'id': '12345', 'name': 'Test User'}`. -/
def envCallback : CallbackEnv :=
  ⟨fun _ => ⟨some "test_token", none, none, none, none, none⟩,
   fun _ => ⟨some "12345", some "Test User"⟩, "tweet.read", 0⟩

/-- Session prepared by `initiate_oauth2` for twitter. -/
def sessionWithState : Session := [("twitter_oauth_state", "legitimate_state")]

/-- Callback query string carrying a mismatched `state`
(tests/test_views.py `test_oauth_callback_invalid_state`). -/
def qMismatch : QueryParams := ⟨some "test_code", some "malicious_state", none⟩

/-- Response sequence 429, 429, 429, 200 (no Retry-After header). -/
def exReq : Nat → Response := fun i =>
  if i < 3 then ⟨429, none, "rate limited"⟩ else ⟨200, none, "ok"⟩

/-- Response sequence that is always 429. -/
def ex429 : Nat → Response := fun _ => ⟨429, none, "rate limited"⟩

/-- A sample stored token for the frame-condition witnesses. -/
def tokSample : OAuthToken :=
  ⟨7, "github", "old_access", some 50, "old_refresh", some 99,
   some "Bearer", "repo", "gh_user_9", 2, none, some "Old Name"⟩

/-- A refresh response carrying only a new access token. -/
def tdAccessOnly : TokenData := ⟨some "brand_new", none, none, none, none, none⟩

def uiSample : UserInfo := ⟨some "gh_user_9", some "New Name"⟩

end OAuth2Capture

namespace OAuth2Capture

theorem alphaChar_ne_eq (i : Nat) : alphaChar i ≠ '=' := by
  have h : i % 64 < 64 := Nat.mod_lt _ (by decide)
  unfold alphaChar
  revert h
  generalize i % 64 = j
  intro h
  interval_cases j <;> decide

theorem alphaChar_beq_eq_false (i : Nat) : (alphaChar i == '=') = false :=
  beq_eq_false_iff_ne.mpr (alphaChar_ne_eq i)

theorem dropWhile_append_cons {α : Type} (p : α → Bool) (l1 l2 : List α) (c : α)
    (hc : p c = false) :
    List.dropWhile p (l1 ++ c :: l2) = List.dropWhile p l1 ++ c :: l2 := by
  induction l1 with
  | nil => simp [List.dropWhile_cons, hc]
  | cons x xs ih =>
      simp only [List.cons_append, List.dropWhile_cons]
      cases hpx : p x <;> simp [ih]

theorem b64strippedLen_add3 (n : Nat) :
    b64strippedLen (n + 3) = b64strippedLen n + 4 := by
  unfold b64strippedLen
  have h1 : (n + 3) / 3 = n / 3 + 1 := by omega
  have h2 : (n + 3) % 3 = n % 3 := by omega
  rw [h1, h2]
  generalize (match n % 3 with | 0 => 0 | 1 => 2 | _ => 3) = M
  omega

/-- Length of the stripped base64url encoding, by cases on the input
length mod 3. -/
theorem stripEqList_b64encodeList_length (bs : List Nat) :
    (stripEqList (b64encodeList bs)).length = b64strippedLen bs.length := by
  induction bs using b64encodeList.induct with
  | case1 a b c rest ih =>
      show (stripEqList (_ :: _ :: _ :: _ :: b64encodeList rest)).length = _
      unfold stripEqList
      rw [show ∀ (w x y z : Char) (T : List Char),
            (w :: x :: y :: z :: T).reverse = T.reverse ++ z :: [y, x, w] by
            intro w x y z T; simp]
      rw [dropWhile_append_cons (fun ch => ch == '=') _ _ _ (alphaChar_beq_eq_false _)]
      have hlen : (List.dropWhile (fun ch => ch == '=') (b64encodeList rest).reverse).length
          = b64strippedLen rest.length := by
        simpa [stripEqList] using ih
      have h3 : (a :: b :: c :: rest).length = rest.length + 3 := by
        simp only [List.length_cons]
      rw [h3, b64strippedLen_add3]
      simp [hlen]
  | case2 a =>
      show (stripEqList [alphaChar _, alphaChar _, '=', '=']).length = _
      unfold stripEqList
      simp [List.dropWhile_cons, alphaChar_beq_eq_false, b64strippedLen]
  | case3 a b =>
      show (stripEqList [alphaChar _, alphaChar _, alphaChar _, '=']).length = _
      unfold stripEqList
      simp [List.dropWhile_cons, alphaChar_beq_eq_false, b64strippedLen]
  | case4 =>
      simp [stripEqList, b64encodeList, b64strippedLen]

/-! ## Helper lemmas about get_valid_token -/

theorem is_expired_some (now e : Int) (tok : OAuthToken) (h : tok.expires_at = some e) :
    tok.is_expired now = decide (now > e) := by
  unfold OAuthToken.is_expired
  rw [h]

/-- Reduction of `get_valid_token` once `expires_at` is known to be
set. -/
theorem get_valid_token_eq_some (config_scope : String) (env : RefreshEnv)
    (now : Int) (tok : OAuthToken) (e : Int) (he : tok.expires_at = some e) :
    get_valid_token config_scope env now tok =
      if e ≤ now then
        match env.refresh_result tok.refresh_token with
        | none => ⟨none, none, 1⟩
        | some td =>
          match td.access_token with
          | none => ⟨none, none, 1⟩
          | some at_tok =>
            if env.save_fails then ⟨none, none, 2⟩
            else
              match update_token config_scope now tok td (env.user_info at_tok) with
              | none => ⟨none, none, 2⟩
              | some tok2 => ⟨some tok2.access_token, some tok2, 2⟩
      else ⟨some tok.access_token, none, 0⟩ := by
  unfold get_valid_token
  rw [he]

theorem get_valid_token_of_not_expired (config_scope : String) (env : RefreshEnv)
    (now : Int) (tok : OAuthToken)
    (h : tok.expires_at = none ∨ ∃ e, tok.expires_at = some e ∧ now < e) :
    get_valid_token config_scope env now tok = ⟨some tok.access_token, none, 0⟩ := by
  rcases h with h | ⟨e, he, hlt⟩
  · unfold get_valid_token
    rw [h]
  · rw [get_valid_token_eq_some _ _ _ _ e he, if_neg (not_le.mpr hlt)]

theorem get_valid_token_calls_pos (config_scope : String) (env : RefreshEnv)
    (now : Int) (tok : OAuthToken) (e : Int)
    (he : tok.expires_at = some e) (hle : e ≤ now) :
    1 ≤ (get_valid_token config_scope env now tok).network_calls := by
  rw [get_valid_token_eq_some _ _ _ _ e he, if_pos hle]
  repeat' split
  all_goals simp

/-! ## Helper lemmas about retry_with_backoff -/

theorem delay_map_shift (req : Nat → Response) (fb : List Int) (att k : Nat) :
    delayFor fb att (req att)
        :: (List.range k).map (fun i => delayFor fb (att + 1 + i) (req (att + 1 + i)))
      = (List.range (k + 1)).map (fun i => delayFor fb (att + i) (req (att + i))) := by
  rw [List.range_succ_eq_map, List.map_cons, List.map_map]
  simp only [Nat.add_zero]
  congr 1
  apply List.map_congr_left
  intro i _
  simp only [Function.comp]
  rw [show att + 1 + i = att + (i + 1) by omega]

theorem retryLoop_first_success (req : Nat → Response) (fb : List Int) :
    ∀ (k att rem : Nat), k < rem →
      (∀ j, j < k → (req (att + j)).status_code = 429) →
      (req (att + k)).status_code ≠ 429 →
      retryLoop req fb att rem =
        (some (req (att + k)),
         (List.range k).map (fun i => delayFor fb (att + i) (req (att + i))), k + 1) := by
  intro k
  induction k with
  | zero =>
    intro att rem hk h429 hok
    obtain ⟨rem', rfl⟩ : ∃ rem', rem = rem' + 1 := ⟨rem - 1, by omega⟩
    simp only [Nat.add_zero] at hok
    rw [retryLoop.eq_2, if_pos hok]
    rfl
  | succ k ih =>
    intro att rem hk h429 hok
    obtain ⟨rem', rfl⟩ : ∃ rem', rem = rem' + 1 := ⟨rem - 1, by omega⟩
    have h0 : (req att).status_code = 429 := by simpa using h429 0 (Nat.succ_pos k)
    rw [retryLoop.eq_2, if_neg (by simp [h0])]
    obtain ⟨rem'', rfl⟩ : ∃ rem'', rem' = rem'' + 1 := ⟨rem' - 1, by omega⟩
    have ihh := ih (att + 1) (rem'' + 1) (by omega)
      (fun j hj => by
        have := h429 (j + 1) (by omega)
        simpa [show att + 1 + j = att + (j + 1) by omega] using this)
      (by simpa [show att + 1 + k = att + (k + 1) by omega] using hok)
    simp only [ihh, Prod.mk.injEq]
    refine ⟨by rw [show att + 1 + k = att + (k + 1) by omega],
      delay_map_shift req fb att k, by simp⟩

theorem retryLoop_all429 (req : Nat → Response) (fb : List Int) :
    ∀ (rem att : Nat), 0 < rem →
      (∀ j, j < rem → (req (att + j)).status_code = 429) →
      retryLoop req fb att rem =
        (some (req (att + (rem - 1))),
         (List.range rem).map (fun i => delayFor fb (att + i) (req (att + i))), rem) := by
  intro rem
  induction rem with
  | zero => intro att h; omega
  | succ rem' ih =>
    intro att _ h429
    have h0 : (req att).status_code = 429 := by simpa using h429 0 (Nat.succ_pos _)
    rw [retryLoop.eq_2, if_neg (by simp [h0])]
    cases rem' with
    | zero => rfl
    | succ rem'' =>
      have ihh := ih (att + 1) (Nat.succ_pos _)
        (fun j hj => by
          have := h429 (j + 1) (by omega)
          simpa [show att + 1 + j = att + (j + 1) by omega] using this)
      simp only [ihh, Prod.mk.injEq]
      refine ⟨by rw [show att + 1 + (rem'' + 1 - 1) = att + (rem'' + 1 + 1 - 1) by omega],
        ?_, by simp⟩
      have := delay_map_shift req fb att (rem'' + 1)
      simpa using this

theorem retryLoop_calls_le (req : Nat → Response) (fb : List Int) :
    ∀ (rem att : Nat), (retryLoop req fb att rem).2.2 ≤ rem := by
  intro rem
  induction rem with
  | zero => intro att; simp [retryLoop.eq_1]
  | succ rem' ih =>
    intro att
    rw [retryLoop.eq_2]
    split
    · simp
    · cases rem' with
      | zero => simp
      | succ rem'' =>
        have h := ih (att + 1)
        show (retryLoop req fb (att + 1) (rem'' + 1)).2.2 + 1 ≤ rem'' + 1 + 1
        omega

/-! ## Claim theorems -/

/-- Claim C1: the claim says a failed refresh (empty result, result
lacking `access_token`, or a persistence error) makes
`get_valid_token` fail with a `TokenRefreshFailed` condition carrying
the provider name.  The code instead returns the silent null result in
all three situations (while indeed leaving the stored record
unwritten): evaluated at the repository's own test inputs, the result
is `None` and no write occurs, and no error condition exists in the
function's `str | None` return type at all — contradicting
tests/test_token_refresh.py, which expects `TokenRefreshError` to be
raised. -/
theorem claim_C1_refresh_failure_returns_silent_none :
    get_valid_token "tweet.read" envRefreshEmpty 0 tokExpired = ⟨none, none, 1⟩ ∧
    get_valid_token "tweet.read" envRefreshInvalid 0 tokExpired = ⟨none, none, 1⟩ ∧
    get_valid_token "tweet.read" envSaveError 0 tokExpired = ⟨none, none, 2⟩ := by
  decide

/-- Claim C2: the claim says the callback rejects an absent/mismatched
`state` with an InvalidState 400 before exchanging the code, and clears
the session-stored state on every path.  The view as written never
consults the `state` query parameter or the session: evaluated at the
repository's own test input (session state `legitimate_state`, query
state `malicious_state`), the callback exchanges the code, reports
success, and leaves the session untouched — contradicting
tests/test_views.py `test_oauth_callback_invalid_state`. -/
theorem claim_C2_state_never_validated_nor_cleared :
    (oauth2_callback envCallback "twitter" qMismatch sessionWithState 1 []).outcome
        = CallbackOutcome.success "twitter" ∧
    (oauth2_callback envCallback "twitter" qMismatch sessionWithState 1 []).exchange_called
        = true ∧
    (oauth2_callback envCallback "twitter" qMismatch sessionWithState 1 []).session
        = sessionWithState := by
  decide

/-- Claim C3: `get_valid_token` returns the stored token unchanged with
no network call and no write when `expires_at` is absent or in the
future; for an expired token whose refresh yields
`{access_token: "new", expires_in: 3600}` it persists `access_token =
"new"` and `expires_at = now + 3600` and returns `"new"`. -/
theorem claim_C3_get_valid_token_postcondition (config_scope : String)
    (env : RefreshEnv) (now : Int) (tok : OAuthToken) :
    (tok.expires_at = none →
      get_valid_token config_scope env now tok = ⟨some tok.access_token, none, 0⟩) ∧
    (∀ e, tok.expires_at = some e → now < e →
      get_valid_token config_scope env now tok = ⟨some tok.access_token, none, 0⟩) ∧
    (∀ e, tok.expires_at = some e → e < now →
      env.refresh_result tok.refresh_token
          = some ⟨some "new", none, some 3600, none, none, none⟩ →
      env.save_fails = false →
      ∃ tok', get_valid_token config_scope env now tok = ⟨some "new", some tok', 2⟩ ∧
        tok'.access_token = "new" ∧ tok'.expires_at = some (now + 3600)) := by
  refine ⟨fun h => get_valid_token_of_not_expired _ _ _ _ (Or.inl h),
          fun e he hlt => get_valid_token_of_not_expired _ _ _ _ (Or.inr ⟨e, he, hlt⟩), ?_⟩
  intro e he hlt hrf hsf
  rw [get_valid_token_eq_some _ _ _ _ e he, if_pos (le_of_lt hlt), hrf, hsf]
  exact ⟨_, rfl, rfl, rfl⟩

/-- Witness for C3 at the expired twitter token and the
`{access_token: "new", expires_in: 3600}` refresh environment. -/
theorem claim_C3_witness :
    tokExpired.expires_at = some (-3600) ∧ ((-3600 : Int) < 0) ∧
      (∃ tok', get_valid_token "tweet.read" envRefreshNew 0 tokExpired
            = ⟨some "new", some tok', 2⟩ ∧
          tok'.access_token = "new" ∧ tok'.expires_at = some (0 + 3600)) :=
  ⟨rfl, by decide,
   (claim_C3_get_valid_token_postcondition "tweet.read" envRefreshNew 0 tokExpired).2.2
     (-3600) rfl (by decide) rfl rfl⟩

/-- Claim C5: the factory rejects every name outside the six registered
providers with the `Unsupported provider` ValueError, and maps each of
the six names to its adapter type. -/
theorem claim_C5_factory_total (name : String)
    (h : name ∉ (["twitter", "linkedin", "github", "reddit", "pinterest",
        "facebook"] : List String)) :
    OAuth2ProviderFactory.get_provider name
        = Except.error ("Unsupported provider: " ++ name) ∧
    OAuth2ProviderFactory.get_provider "twitter" = Except.ok ProviderType.twitter ∧
    OAuth2ProviderFactory.get_provider "linkedin" = Except.ok ProviderType.linkedin ∧
    OAuth2ProviderFactory.get_provider "github" = Except.ok ProviderType.github ∧
    OAuth2ProviderFactory.get_provider "reddit" = Except.ok ProviderType.reddit ∧
    OAuth2ProviderFactory.get_provider "pinterest" = Except.ok ProviderType.pinterest ∧
    OAuth2ProviderFactory.get_provider "facebook" = Except.ok ProviderType.facebook := by
  simp only [List.mem_cons, List.not_mem_nil, or_false, not_or] at h
  obtain ⟨h1, h2, h3, h4, h5, h6⟩ := h
  refine ⟨?_, rfl, rfl, rfl, rfl, rfl, rfl⟩
  simp [OAuth2ProviderFactory.get_provider, h1, h2, h3, h4, h5, h6]

/-- Witness for C5 at the unregistered name "google". -/
theorem claim_C5_witness :
    ("google" ∉ (["twitter", "linkedin", "github", "reddit", "pinterest",
        "facebook"] : List String)) ∧
      OAuth2ProviderFactory.get_provider "google"
        = Except.error ("Unsupported provider: " ++ "google") :=
  ⟨by decide, (claim_C5_factory_total "google" (by decide)).1⟩

/-- Claim C7: `update_token` keeps the old `refresh_token` when the
response has none (and overwrites it when one is present), leaves
`expires_at` and `refresh_token_expires_at` unchanged when `expires_in`
/ `refresh_token_expires_in` are absent, and always overwrites
`access_token`, `scope` (response value or the configured default),
`token_type`, `profile_json` and the derived `name`. -/
theorem claim_C7_update_token_frame (config_scope : String) (now : Int)
    (tok : OAuthToken) (td : TokenData) (ui : UserInfo) (a : String)
    (h : td.access_token = some a) :
    ∃ tok', update_token config_scope now tok td ui = some tok' ∧
      (td.refresh_token = none → tok'.refresh_token = tok.refresh_token) ∧
      (∀ rt, td.refresh_token = some rt → tok'.refresh_token = rt) ∧
      (td.expires_in = none → tok'.expires_at = tok.expires_at) ∧
      (td.refresh_token_expires_in = none →
        tok'.refresh_token_expires_at = tok.refresh_token_expires_at) ∧
      tok'.access_token = a ∧
      tok'.scope = td.scope.getD config_scope ∧
      tok'.token_type = td.token_type ∧
      tok'.profile_json = some ui ∧
      tok'.name = ui.name := by
  unfold update_token
  rw [h]
  refine ⟨_, rfl, ?_, ?_, ?_, ?_, rfl, rfl, rfl, rfl, rfl⟩
  · intro h'; simp [h']
  · intro rt h'; simp [h']
  · intro h'; simp [h']
  · intro h'; simp [h']

/-- Witness for C7 at a refresh response carrying only a new access
token. -/
theorem claim_C7_witness :
    tdAccessOnly.access_token = some "brand_new" ∧
      (∃ tok', update_token "cfg" 100 tokSample tdAccessOnly uiSample = some tok' ∧
        (tdAccessOnly.refresh_token = none →
          tok'.refresh_token = tokSample.refresh_token) ∧
        (∀ rt, tdAccessOnly.refresh_token = some rt → tok'.refresh_token = rt) ∧
        (tdAccessOnly.expires_in = none → tok'.expires_at = tokSample.expires_at) ∧
        (tdAccessOnly.refresh_token_expires_in = none →
          tok'.refresh_token_expires_at = tokSample.refresh_token_expires_at) ∧
        tok'.access_token = "brand_new" ∧
        tok'.scope = tdAccessOnly.scope.getD "cfg" ∧
        tok'.token_type = tdAccessOnly.token_type ∧
        tok'.profile_json = some uiSample ∧
        tok'.name = uiSample.name) :=
  ⟨rfl, claim_C7_update_token_frame "cfg" 100 tokSample tdAccessOnly uiSample "brand_new" rfl⟩

/-- Claim C9: `is_expired` uses strict `now > expires_at` while
`get_valid_token` refreshes when `expires_at <= now`; at the boundary
instant `expires_at = now` the former says not-expired while the latter
attempts a refresh; strictly past, strictly future, and absent
`expires_at` agree. -/
theorem claim_C9_expiry_boundary_disagreement (config_scope : String)
    (env : RefreshEnv) (now : Int) (tok : OAuthToken) :
    (tok.expires_at = none →
      tok.is_expired now = false ∧
        (get_valid_token config_scope env now tok).network_calls = 0) ∧
    ∀ e, tok.expires_at = some e →
      (e = now →
        tok.is_expired now = false ∧
          1 ≤ (get_valid_token config_scope env now tok).network_calls) ∧
      (e < now →
        tok.is_expired now = true ∧
          1 ≤ (get_valid_token config_scope env now tok).network_calls) ∧
      (now < e →
        tok.is_expired now = false ∧
          (get_valid_token config_scope env now tok).network_calls = 0) := by
  constructor
  · intro h
    refine ⟨by unfold OAuthToken.is_expired; rw [h], ?_⟩
    rw [get_valid_token_of_not_expired _ _ _ _ (Or.inl h)]
  · intro e he
    refine ⟨fun heq => ⟨?_, ?_⟩, fun hlt => ⟨?_, ?_⟩, fun hlt => ⟨?_, ?_⟩⟩
    · rw [is_expired_some now e tok he]
      simp [heq]
    · exact get_valid_token_calls_pos _ _ _ _ e he (le_of_eq heq)
    · rw [is_expired_some now e tok he]
      simp [hlt]
    · exact get_valid_token_calls_pos _ _ _ _ e he (le_of_lt hlt)
    · rw [is_expired_some now e tok he]
      simp [not_lt.mpr (le_of_lt hlt)]
    · rw [get_valid_token_of_not_expired _ _ _ _ (Or.inr ⟨e, he, hlt⟩)]

/-- Witness for C9 at the boundary token `expires_at = now = 0`. -/
theorem claim_C9_witness :
    ((⟨1, "twitter", "t", some 0, "r", none, some "Bearer", "s", "u", 1, none,
        none⟩ : OAuthToken).expires_at = some 0) ∧
      (⟨1, "twitter", "t", some 0, "r", none, some "Bearer", "s", "u", 1, none,
          none⟩ : OAuthToken).is_expired 0 = false ∧
        1 ≤ (get_valid_token "s" envRefreshEmpty 0
            ⟨1, "twitter", "t", some 0, "r", none, some "Bearer", "s", "u", 1, none,
              none⟩).network_calls :=
  ⟨rfl,
   (((claim_C9_expiry_boundary_disagreement "s" envRefreshEmpty 0
       ⟨1, "twitter", "t", some 0, "r", none, some "Bearer", "s", "u", 1, none,
         none⟩).2 0 rfl).1 rfl).1,
   (((claim_C9_expiry_boundary_disagreement "s" envRefreshEmpty 0
       ⟨1, "twitter", "t", some 0, "r", none, some "Bearer", "s", "u", 1, none,
         none⟩).2 0 rfl).1 rfl).2⟩

/-- Claim C10: `generate_code_verifier` with the default `length = 128`
interprets the argument as a count of random bytes, so the returned
verifier has `ceil(128 * 4 / 3) = 171` characters — over the
128-character RFC 7636 maximum. -/
theorem claim_C10_verifier_length (randomBytes : List Nat)
    (h : randomBytes.length = 128) :
    (generate_code_verifier randomBytes).length = 171 ∧ 128 < 171 := by
  constructor
  · show (stripEqList (b64encodeList randomBytes)).length = 171
    rw [stripEqList_b64encodeList_length, h]
    decide
  · decide

theorem sessionGet_sessionSet_self (s : Session) (k v : String) :
    sessionGet (sessionSet s k v) k = some v := by
  unfold sessionGet sessionSet
  rw [List.find?_append]
  have hnone : List.find? (fun p => p.1 == k) (List.filter (fun p => p.1 != k) s)
      = none := by
    rw [List.find?_eq_none]
    intro p hp
    have h2 := (List.mem_filter.mp hp).2
    simp only [bne_iff_ne, ne_eq, decide_eq_true_eq] at h2
    simpa using h2
  rw [hnone]
  simp

/-! ## Helper lemmas about the token store -/

theorem dbSave_map_pk (db : List OAuthToken) (t' : OAuthToken) :
    (dbSave db t').map (fun t => t.pk) = db.map (fun t => t.pk) := by
  induction db with
  | nil => rfl
  | cons a l ih =>
    simp only [dbSave, List.map_cons] at ih ⊢
    rw [ih]
    by_cases h : a.pk = t'.pk
    · simp [h]
    · simp [h]

theorem dbSave_map_key : ∀ (db : List OAuthToken) (t' : OAuthToken),
    (∀ t ∈ db, t.pk = t'.pk → dbKey t = dbKey t') →
    (dbSave db t').map dbKey = db.map dbKey := by
  intro db t'
  induction db with
  | nil => intro _; rfl
  | cons a l ih =>
    intro h
    have hl := ih (fun t ht hp => h t (List.mem_cons_of_mem a ht) hp)
    simp only [dbSave, List.map_cons] at hl ⊢
    rw [hl]
    by_cases hpk : a.pk = t'.pk
    · have hk := h a (List.mem_cons_self a l) hpk
      simp [hpk, hk]
    · simp [hpk]

theorem pk_lt_freshPk (db : List OAuthToken) : ∀ t ∈ db, t.pk < freshPk db := by
  unfold freshPk
  induction db with
  | nil => intro t ht; cases ht
  | cons a l ih =>
    intro t ht
    rcases List.mem_cons.mp ht with rfl | ht
    · have := Nat.le_max_left t.pk (List.foldr (fun t m => max t.pk m) 0 l)
      simp only [List.foldr_cons]
      omega
    · have h1 := ih t ht
      have h2 := Nat.le_max_right a.pk (List.foldr (fun t m => max t.pk m) 0 l)
      simp only [List.foldr_cons]
      omega

theorem dbWF_append_new (db : List OAuthToken) (provider user_id : String)
    (owner : Nat) (hwf : dbWF db)
    (hkey : ∀ t ∈ db, ¬(t.provider = provider ∧ t.user_id = user_id)) :
    dbWF (db ++ [newToken (freshPk db) provider user_id owner]) := by
  obtain ⟨hp, hk⟩ := hwf
  constructor
  · unfold pkNodup at hp ⊢
    rw [List.map_append, List.nodup_append]
    refine ⟨hp, List.nodup_singleton _, ?_⟩
    intro x hx hx2
    obtain ⟨t, ht, rfl⟩ := List.mem_map.mp hx
    have hlt := pk_lt_freshPk db t ht
    simp only [List.map_cons, List.map_nil, List.mem_singleton, newToken] at hx2
    omega
  · unfold uniqueProviderUser at hk ⊢
    rw [List.map_append, List.nodup_append]
    refine ⟨hk, List.nodup_singleton _, ?_⟩
    intro x hx hx2
    obtain ⟨t, ht, rfl⟩ := List.mem_map.mp hx
    simp only [List.map_cons, List.map_nil, List.mem_singleton, newToken, dbKey,
      Prod.mk.injEq] at hx2
    exact hkey t ht hx2

theorem dbSave_preserves (db : List OAuthToken) (tok tok' : OAuthToken)
    (hwf : dbWF db) (hmem : tok ∈ db) (hpk : tok'.pk = tok.pk)
    (hkey : dbKey tok' = dbKey tok) :
    dbWF (dbSave db tok') ∧ (dbSave db tok').length = db.length ∧
      (dbSave db tok').map (fun t => t.pk) = db.map (fun t => t.pk) := by
  obtain ⟨hp, hk⟩ := hwf
  have hcond : ∀ t ∈ db, t.pk = tok'.pk → dbKey t = dbKey tok' := by
    intro t ht hteq
    have heq : t = tok := List.inj_on_of_nodup_map hp ht hmem (by rw [hteq, hpk])
    rw [heq, ← hkey]
  have hmk := dbSave_map_key db tok' hcond
  have hmp := dbSave_map_pk db tok'
  refine ⟨⟨?_, ?_⟩, ?_, hmp⟩
  · unfold pkNodup at hp ⊢
    rw [hmp]
    exact hp
  · unfold uniqueProviderUser at hk ⊢
    rw [hmk]
    exact hk
  · simp [dbSave]

theorem update_token_preserves_key (config_scope : String) (now : Int)
    (tok tok' : OAuthToken) (td : TokenData) (ui : UserInfo)
    (h : update_token config_scope now tok td ui = some tok') :
    tok'.pk = tok.pk ∧ tok'.provider = tok.provider ∧ tok'.user_id = tok.user_id := by
  unfold update_token at h
  cases hta : td.access_token with
  | none => rw [hta] at h; exact Option.noConfusion h
  | some a =>
    rw [hta] at h
    have h2 := Option.some.inj h
    rw [← h2]
    exact ⟨rfl, rfl, rfl⟩

theorem get_valid_token_written_key (config_scope : String) (env : RefreshEnv)
    (now : Int) (tok tok' : OAuthToken)
    (h : (get_valid_token config_scope env now tok).written = some tok') :
    tok'.pk = tok.pk ∧ dbKey tok' = dbKey tok := by
  unfold get_valid_token at h
  split at h
  · split at h
    · split at h
      · exact Option.noConfusion h
      · rename_i td hrr
        split at h
        · exact Option.noConfusion h
        · rename_i a hta
          split at h
          · exact Option.noConfusion h
          · split at h
            · exact Option.noConfusion h
            · rename_i tok2 hup
              have h2 : tok2 = tok' := Option.some.inj h
              subst h2
              have hk := update_token_preserves_key config_scope now tok tok2 td
                (env.user_info a) hup
              exact ⟨hk.1, by unfold dbKey; rw [hk.2.1, hk.2.2]⟩
    · exact Option.noConfusion h
  · exact Option.noConfusion h

theorem get_or_create_existing (db : List OAuthToken) (provider user_id : String)
    (owner : Nat) (t0 : OAuthToken)
    (hfind : List.find? (fun t =>
        t.provider == provider && t.user_id == user_id && t.owner == owner) db
      = some t0) :
    get_or_create db provider user_id owner = .ok (t0, false, db) := by
  unfold get_or_create
  rw [hfind]

theorem get_or_create_ok (db : List OAuthToken) (provider user_id : String)
    (owner : Nat) (hwf : dbWF db) (tok : OAuthToken) (created : Bool)
    (db1 : List OAuthToken)
    (h : get_or_create db provider user_id owner = .ok (tok, created, db1)) :
    dbWF db1 ∧ tok ∈ db1 := by
  unfold get_or_create at h
  cases hfind : List.find? (fun t =>
      t.provider == provider && t.user_id == user_id && t.owner == owner) db with
  | some t0 =>
    rw [hfind] at h
    cases h
    exact ⟨hwf, List.mem_of_find?_eq_some hfind⟩
  | none =>
    rw [hfind] at h
    by_cases hany : db.any (fun t => t.provider == provider && t.user_id == user_id)
        = true
    · rw [if_pos hany] at h
      exact Except.noConfusion h
    · rw [if_neg hany] at h
      cases h
      have hfalse : db.any (fun t => t.provider == provider && t.user_id == user_id)
          = false := Bool.eq_false_iff.mpr hany
      refine ⟨?_, List.mem_append_right _ (List.mem_singleton_self _)⟩
      apply dbWF_append_new db provider user_id owner hwf
      intro t ht hcontra
      have hne := List.any_eq_false.mp hfalse t ht
      simp [hcontra.1, hcontra.2] at hne

/-- Claim C8: at most one OAuthToken row per (provider, user_id) in
every reachable store state: the callback preserves the invariant (it
upserts — when a row for the (provider, user_id, owner) triple exists it
updates it instead of inserting a second one, keeping the row count
unchanged), and refresh writes mutate the existing row in place
(preserving the invariant, the row count, and the primary keys). -/
theorem claim_C8_unique_row_invariant :
    (∀ (env : CallbackEnv) (provider : String) (q : QueryParams) (session : Session)
        (owner : Nat) (db : List OAuthToken), dbWF db →
      dbWF (oauth2_callback env provider q session owner db).db) ∧
    (∀ (env : CallbackEnv) (provider : String) (q : QueryParams) (session : Session)
        (owner : Nat) (db : List OAuthToken) (a uid : String), dbWF db →
      (env.exchange q.code).access_token = some a →
      (a == "") = false →
      (env.user_info a).id = some uid →
      (∃ t ∈ db, t.provider = provider ∧ t.user_id = uid ∧ t.owner = owner) →
      (oauth2_callback env provider q session owner db).db.length = db.length) ∧
    (∀ (config_scope : String) (env : RefreshEnv) (now : Int) (tok : OAuthToken)
        (db : List OAuthToken), dbWF db → tok ∈ db →
      dbWF (applyWrite db (get_valid_token config_scope env now tok).written) ∧
      (applyWrite db (get_valid_token config_scope env now tok).written).length
        = db.length ∧
      (applyWrite db (get_valid_token config_scope env now tok).written).map
          (fun t => t.pk)
        = db.map (fun t => t.pk)) := by
  refine ⟨?_, ?_, ?_⟩
  · intro env provider q session owner db hwf
    unfold oauth2_callback
    split
    · exact hwf
    · split
      · exact hwf
      · split
        · exact hwf
        · split
          · exact hwf
          · rename_i uid hid
            split
            · exact hwf
            · rename_i tok created db1 heq
              obtain ⟨hwf1, hmem1⟩ :=
                get_or_create_ok db provider uid owner hwf tok created db1 heq
              split
              · exact hwf1
              · rename_i tok' hup
                have hk := update_token_preserves_key env.config_scope env.now tok
                  tok' (env.exchange q.code) (env.user_info _) hup
                exact (dbSave_preserves db1 tok tok' hwf1 hmem1 hk.1
                  (by unfold dbKey; rw [hk.2.1, hk.2.2])).1
  · intro env provider q session owner db a uid hwf ha hane hid hex
    obtain ⟨t0, ht0, hp0, hu0, ho0⟩ := hex
    have hsome : (List.find? (fun t =>
        t.provider == provider && t.user_id == uid && t.owner == owner) db).isSome :=
      List.find?_isSome.mpr ⟨t0, ht0, by simp [hp0, hu0, ho0]⟩
    obtain ⟨t1, hfind⟩ := Option.isSome_iff_exists.mp hsome
    unfold oauth2_callback
    split
    · rfl
    · split
      · rename_i hnone
        rw [ha] at hnone
      · rename_i a' ha'
        rw [ha] at ha'
        obtain rfl : a = a' := Option.some.inj ha'
        split
        · rename_i htrue
          rw [hane] at htrue
        · split
          · rename_i hidn
            rw [hid] at hidn
          · rename_i uid' hid'
            rw [hid] at hid'
            obtain rfl : uid = uid' := Option.some.inj hid'
            split
            · rename_i e herr
              rw [get_or_create_existing db provider uid owner t1 hfind] at herr
            · rename_i tok created db1 heq
              rw [get_or_create_existing db provider uid owner t1 hfind] at heq
              cases heq
              split
              · rfl
              · simp [dbSave]
  · intro config_scope env now tok db hwf hmem
    cases hw : (get_valid_token config_scope env now tok).written with
    | none =>
      exact ⟨hwf, rfl, rfl⟩
    | some tok' =>
      have hk := get_valid_token_written_key config_scope env now tok tok' hw
      exact dbSave_preserves db tok tok' hwf hmem hk.1 hk.2

/-- Witness for C8: the store invariant holds after running the
callback on the empty store, and an in-place refresh write on a
one-row store keeps its primary keys and row count. -/
theorem claim_C8_witness :
    (dbWF [] ∧
      dbWF (oauth2_callback envCallback "twitter" qMismatch sessionWithState 1 []).db) ∧
    (dbWF [tokExpired] ∧ tokExpired ∈ [tokExpired] ∧
      dbWF (applyWrite [tokExpired]
        (get_valid_token "tweet.read" envRefreshNew 0 tokExpired).written) ∧
      (applyWrite [tokExpired]
        (get_valid_token "tweet.read" envRefreshNew 0 tokExpired).written).length
        = [tokExpired].length) :=
  ⟨⟨⟨List.nodup_nil, List.nodup_nil⟩,
    claim_C8_unique_row_invariant.1 envCallback "twitter" qMismatch sessionWithState 1 []
      ⟨List.nodup_nil, List.nodup_nil⟩⟩,
   ⟨⟨List.nodup_singleton _, List.nodup_singleton _⟩, List.mem_singleton_self _,
    (claim_C8_unique_row_invariant.2.2 "tweet.read" envRefreshNew 0 tokExpired [tokExpired]
      ⟨List.nodup_singleton _, List.nodup_singleton _⟩ (List.mem_singleton_self _)).1,
    (claim_C8_unique_row_invariant.2.2 "tweet.read" envRefreshNew 0 tokExpired [tokExpired]
      ⟨List.nodup_singleton _, List.nodup_singleton _⟩ (List.mem_singleton_self _)).2.1⟩⟩

/-- Claim C6: every adapter's authorization URL carries `client_id`,
`redirect_uri`, `response_type=code`, `state` and `scope`; Twitter's
additionally carries `code_challenge` and `code_challenge_method=S256`,
the PKCE verifier is stored in the session under `code_verifier`, and
the challenge in the URL is exactly the unpadded base64url encoding of
the SHA-256 hash of that stored verifier. -/
theorem claim_C6_authorization_url_parameters :
    (∀ (authorize_url : String) (config : ProviderConfig) (state redirect_uri : String),
      paramGet (OAuth2Provider.get_authorization_url authorize_url config state
          redirect_uri) "client_id" = some config.client_id ∧
      paramGet (OAuth2Provider.get_authorization_url authorize_url config state
          redirect_uri) "redirect_uri" = some redirect_uri ∧
      paramGet (OAuth2Provider.get_authorization_url authorize_url config state
          redirect_uri) "response_type" = some "code" ∧
      paramGet (OAuth2Provider.get_authorization_url authorize_url config state
          redirect_uri) "state" = some state ∧
      paramGet (OAuth2Provider.get_authorization_url authorize_url config state
          redirect_uri) "scope" = some config.scope) ∧
    (∀ (config : ProviderConfig) (state redirect_uri : String),
      paramGet (RedditOAuth2Provider.get_authorization_url config state redirect_uri)
          "client_id" = some config.client_id ∧
      paramGet (RedditOAuth2Provider.get_authorization_url config state redirect_uri)
          "redirect_uri" = some redirect_uri ∧
      paramGet (RedditOAuth2Provider.get_authorization_url config state redirect_uri)
          "response_type" = some "code" ∧
      paramGet (RedditOAuth2Provider.get_authorization_url config state redirect_uri)
          "state" = some state ∧
      paramGet (RedditOAuth2Provider.get_authorization_url config state redirect_uri)
          "scope" = some config.scope) ∧
    (∀ (config : ProviderConfig) (state redirect_uri : String) (session : Session)
        (verifierBytes : List Nat),
      paramGet (TwitterOAuth2Provider.get_authorization_url config state redirect_uri
          session verifierBytes).1 "client_id" = some config.client_id ∧
      paramGet (TwitterOAuth2Provider.get_authorization_url config state redirect_uri
          session verifierBytes).1 "redirect_uri" = some redirect_uri ∧
      paramGet (TwitterOAuth2Provider.get_authorization_url config state redirect_uri
          session verifierBytes).1 "response_type" = some "code" ∧
      paramGet (TwitterOAuth2Provider.get_authorization_url config state redirect_uri
          session verifierBytes).1 "state" = some state ∧
      paramGet (TwitterOAuth2Provider.get_authorization_url config state redirect_uri
          session verifierBytes).1 "scope" = some config.scope ∧
      paramGet (TwitterOAuth2Provider.get_authorization_url config state redirect_uri
          session verifierBytes).1 "code_challenge_method" = some "S256" ∧
      sessionGet (TwitterOAuth2Provider.get_authorization_url config state redirect_uri
          session verifierBytes).2 "code_verifier"
        = some (generate_code_verifier verifierBytes) ∧
      paramGet (TwitterOAuth2Provider.get_authorization_url config state redirect_uri
          session verifierBytes).1 "code_challenge"
        = some (generate_code_challenge (generate_code_verifier verifierBytes))) ∧
    (∀ verifier : String,
      generate_code_challenge verifier
        = ⟨stripEqList (b64encodeList (sha256 (asciiBytes verifier)))⟩) := by
  refine ⟨?_, ?_, ?_, fun verifier => rfl⟩
  · intro authorize_url config state redirect_uri
    exact ⟨rfl, rfl, rfl, rfl, rfl⟩
  · intro config state redirect_uri
    exact ⟨rfl, rfl, rfl, rfl, rfl⟩
  · intro config state redirect_uri session verifierBytes
    exact ⟨rfl, rfl, rfl, rfl, rfl, rfl,
      sessionGet_sessionSet_self session "code_verifier" _, rfl⟩

/-- Claim C4: the Backoff Executor returns the first non-429 response
immediately (with no sleep before it), makes at most `max_retries` calls
in total, returns the last response once attempts are exhausted without
raising; the sleep before each retry is `int(Retry-After)` when that
header parses, else the fallback-table value; concretely, on
429,429,429,200 with defaults exactly 4 calls occur with sleeps 5,10,20,
and on all-429 with `max_retries = 3` exactly 3 calls occur and the last
429 is returned. -/
theorem claim_C4_backoff_executor :
    (∀ (request_func : Nat → Response) (fallback_delays : List Int)
        (max_retries k : Nat),
      k < max_retries →
      (∀ j, j < k → (request_func j).status_code = 429) →
      (request_func k).status_code ≠ 429 →
      retry_with_backoff request_func max_retries fallback_delays =
        (some (request_func k),
         (List.range k).map (fun i => delayFor fallback_delays i (request_func i)),
         k + 1)) ∧
    (∀ (request_func : Nat → Response) (fallback_delays : List Int)
        (max_retries : Nat),
      0 < max_retries →
      (∀ j, j < max_retries → (request_func j).status_code = 429) →
      retry_with_backoff request_func max_retries fallback_delays =
        (some (request_func (max_retries - 1)),
         (List.range max_retries).map
           (fun i => delayFor fallback_delays i (request_func i)),
         max_retries)) ∧
    (∀ (request_func : Nat → Response) (fallback_delays : List Int)
        (max_retries : Nat),
      (retry_with_backoff request_func max_retries fallback_delays).2.2
        ≤ max_retries) ∧
    (∀ (fallback_delays : List Int) (attempt : Nat) (r : Response) (s : String)
        (n : Int),
      r.retry_after = some s → s.isEmpty = false → pyInt? s = some n →
      delayFor fallback_delays attempt r = n) ∧
    (∀ (fallback_delays : List Int) (attempt : Nat) (r : Response) (s : String),
      r.retry_after = some s → pyInt? s = none →
      delayFor fallback_delays attempt r =
        fallback_delays.getD (min attempt (fallback_delays.length - 1)) 0) ∧
    (∀ (fallback_delays : List Int) (attempt : Nat) (r : Response),
      r.retry_after = none →
      delayFor fallback_delays attempt r =
        fallback_delays.getD (min attempt (fallback_delays.length - 1)) 0) ∧
    retry_with_backoff exReq 5 defaultFallbackDelays
      = (some (exReq 3), [5, 10, 20], 4) ∧
    retry_with_backoff ex429 3 defaultFallbackDelays
      = (some (ex429 2), [5, 10, 20], 3) := by
  refine ⟨?_, ?_, ?_, ?_, ?_, ?_, by decide, by decide⟩
  · intro req fb maxR k hk h429 hok
    have h := retryLoop_first_success req fb k 0 maxR hk
      (fun j hj => by simpa using h429 j hj) (by simpa using hok)
    simpa [retry_with_backoff] using h
  · intro req fb maxR hpos h429
    have h := retryLoop_all429 req fb maxR 0 hpos (fun j hj => by simpa using h429 j hj)
    simpa [retry_with_backoff] using h
  · intro req fb maxR
    exact retryLoop_calls_le req fb maxR 0
  · intro fb att r s n hs hne hp
    simp [delayFor, hs, hne, hp]
  · intro fb att r s hs hp
    cases hse : s.isEmpty <;> simp [delayFor, hs, hse, hp]
  · intro fb att r hr
    simp [delayFor, hr]

/-- Witness for C4 at the all-429 sequence with `max_retries = 3`. -/
theorem claim_C4_witness :
    (0 < 3 ∧ ∀ j, j < 3 → (ex429 j).status_code = 429) ∧
      retry_with_backoff ex429 3 defaultFallbackDelays
        = (some (ex429 2), [5, 10, 20], 3) :=
  ⟨⟨by decide, by decide⟩,
   claim_C4_backoff_executor.2.1 ex429 defaultFallbackDelays 3 (by decide) (by decide)⟩

/-- Witness for C10: the default-length call on 128 concrete random
bytes yields a 171-character verifier. -/
theorem claim_C10_witness :
    (List.replicate 128 (0 : Nat)).length = 128 ∧
      (generate_code_verifier (List.replicate 128 (0 : Nat))).length = 171 ∧
        128 < 171 := by
  refine ⟨by simp, ?_⟩
  exact claim_C10_verifier_length _ (by simp)

end OAuth2Capture
